import Mathlib

/-!
Verification of the IR-beacon remote-drive behaviour shared by the
Ev3rstorm and Gripp3r example programs.

The embedded code is the method `drive_by_ir_beacon` (duplicated verbatim
in `IRBeaconDriverMixin` of `ev3rstorm/main.py` and in
`RemoteControlledTank` of `gripp3r/main.py`), which reads the set of
currently held beacon buttons and issues exactly one command to the
`DriveBase` collaborator, plus the argument binding of the parent-class
initializer call made by `Gripp3r.__init__`.

Modelling choices:
* the four beacon buttons are an enumeration `Button`; the instantaneous
  button state (Python's `set(self.ir_sensor.buttons(...))`) is a
  `Finset Button` supplied by the environment at each invocation;
* speeds and turn rates (Python floats, used only with negation and the
  literal 0) are rationals;
* the commands issued to the `DriveBase` collaborator are collected in a
  trace list: each `self.driver.drive(...)` / `self.driver.stop()` call
  appends one `DriveCommand`;
* the controller object (`self`) is a `ControllerState` record of the
  attributes set in `__init__`; the method returns the (unchanged,
  since the Python body performs no attribute assignment) state together
  with the trace of issued commands.
-/

namespace Pybricks

/-- The four remote-beacon buttons used by `drive_by_ir_beacon`
(`pybricks.parameters.Button`). -/
inductive Button where
  | LEFT_UP
  | LEFT_DOWN
  | RIGHT_UP
  | RIGHT_DOWN
deriving DecidableEq, Fintype, Repr

/-- A command issued to the `DriveBase` collaborator: either
`driver.drive(speed, turn_rate)` or `driver.stop()`. -/
inductive DriveCommand where
  | drive (speed turn_rate : ℚ)
  | stop
deriving DecidableEq, Repr

/-- The attributes of the controller object that `__init__` sets:
opaque references to the `DriveBase` and `InfraredSensor` collaborators
and the beacon channel number. -/
structure ControllerState where
  driver : ℕ
  ir_sensor : ℕ
  ir_beacon_channel : ℤ
deriving DecidableEq, Repr

namespace IRBeaconDriverMixin

/-- `IRBeaconDriverMixin.drive_by_ir_beacon` from `ev3rstorm/main.py`:
the if/elif chain matching the pressed-button set against eight exact
patterns, each branch issuing one `driver.drive` call, the final else
issuing `driver.stop()`.  `ir_beacon_button_pressed` is the set read from
the sensor, supplied here as the argument `ir_beacon_button_pressed`. -/
def drive_by_ir_beacon (self : ControllerState)
    (ir_beacon_button_pressed : Finset Button)
    (speed turn_rate : ℚ) :
    ControllerState × List DriveCommand :=
  -- forward
  if ir_beacon_button_pressed = {Button.LEFT_UP, Button.RIGHT_UP} then
    (self, [DriveCommand.drive speed 0])
  -- backward
  else if ir_beacon_button_pressed = {Button.LEFT_DOWN, Button.RIGHT_DOWN} then
    (self, [DriveCommand.drive (-speed) 0])
  -- turn left on the spot
  else if ir_beacon_button_pressed = {Button.LEFT_UP, Button.RIGHT_DOWN} then
    (self, [DriveCommand.drive 0 (-turn_rate)])
  -- turn right on the spot
  else if ir_beacon_button_pressed = {Button.RIGHT_UP, Button.LEFT_DOWN} then
    (self, [DriveCommand.drive 0 turn_rate])
  -- turn left forward
  else if ir_beacon_button_pressed = {Button.LEFT_UP} then
    (self, [DriveCommand.drive speed (-turn_rate)])
  -- turn right forward
  else if ir_beacon_button_pressed = {Button.RIGHT_UP} then
    (self, [DriveCommand.drive speed turn_rate])
  -- turn left backward
  else if ir_beacon_button_pressed = {Button.LEFT_DOWN} then
    (self, [DriveCommand.drive (-speed) turn_rate])
  -- turn right backward
  else if ir_beacon_button_pressed = {Button.RIGHT_DOWN} then
    (self, [DriveCommand.drive (-speed) (-turn_rate)])
  -- otherwise stop
  else
    (self, [DriveCommand.stop])

/-- The outer polling loop (`main`) calls `drive_by_ir_beacon` once per
sensor reading; this folds the step over a list of readings, threading
the controller state and concatenating the issued-command traces. -/
def run_steps (self : ControllerState) (readings : List (Finset Button))
    (speed turn_rate : ℚ) : ControllerState × List DriveCommand :=
  match readings with
  | [] => (self, [])
  | r :: rs =>
    let step := drive_by_ir_beacon self r speed turn_rate
    let rest := run_steps step.1 rs speed turn_rate
    (rest.1, step.2 ++ rest.2)

end IRBeaconDriverMixin

namespace RemoteControlledTank

/-- `RemoteControlledTank.drive_by_ir_beacon` from `gripp3r/main.py`:
the same if/elif chain, embedded separately because the source duplicates
the code. -/
def drive_by_ir_beacon (self : ControllerState)
    (ir_beacon_button_pressed : Finset Button)
    (speed turn_rate : ℚ) :
    ControllerState × List DriveCommand :=
  -- forward
  if ir_beacon_button_pressed = {Button.LEFT_UP, Button.RIGHT_UP} then
    (self, [DriveCommand.drive speed 0])
  -- backward
  else if ir_beacon_button_pressed = {Button.LEFT_DOWN, Button.RIGHT_DOWN} then
    (self, [DriveCommand.drive (-speed) 0])
  -- turn left on the spot
  else if ir_beacon_button_pressed = {Button.LEFT_UP, Button.RIGHT_DOWN} then
    (self, [DriveCommand.drive 0 (-turn_rate)])
  -- turn right on the spot
  else if ir_beacon_button_pressed = {Button.RIGHT_UP, Button.LEFT_DOWN} then
    (self, [DriveCommand.drive 0 turn_rate])
  -- turn left forward
  else if ir_beacon_button_pressed = {Button.LEFT_UP} then
    (self, [DriveCommand.drive speed (-turn_rate)])
  -- turn right forward
  else if ir_beacon_button_pressed = {Button.RIGHT_UP} then
    (self, [DriveCommand.drive speed turn_rate])
  -- turn left backward
  else if ir_beacon_button_pressed = {Button.LEFT_DOWN} then
    (self, [DriveCommand.drive (-speed) turn_rate])
  -- turn right backward
  else if ir_beacon_button_pressed = {Button.RIGHT_DOWN} then
    (self, [DriveCommand.drive (-speed) (-turn_rate)])
  -- otherwise stop
  else
    (self, [DriveCommand.stop])

end RemoteControlledTank

/-- The single command that the if/elif chain of `drive_by_ir_beacon`
selects for a given pressed-button set (same chain, abstracted from the
state passing and the trace). -/
def buttonsToCommand (pressed : Finset Button) (speed turn_rate : ℚ) :
    DriveCommand :=
  if pressed = {Button.LEFT_UP, Button.RIGHT_UP} then
    DriveCommand.drive speed 0
  else if pressed = {Button.LEFT_DOWN, Button.RIGHT_DOWN} then
    DriveCommand.drive (-speed) 0
  else if pressed = {Button.LEFT_UP, Button.RIGHT_DOWN} then
    DriveCommand.drive 0 (-turn_rate)
  else if pressed = {Button.RIGHT_UP, Button.LEFT_DOWN} then
    DriveCommand.drive 0 turn_rate
  else if pressed = {Button.LEFT_UP} then
    DriveCommand.drive speed (-turn_rate)
  else if pressed = {Button.RIGHT_UP} then
    DriveCommand.drive speed turn_rate
  else if pressed = {Button.LEFT_DOWN} then
    DriveCommand.drive (-speed) turn_rate
  else if pressed = {Button.RIGHT_DOWN} then
    DriveCommand.drive (-speed) (-turn_rate)
  else
    DriveCommand.stop

theorem mixin_drive_by_ir_beacon_eq
    (self : ControllerState) (pressed : Finset Button) (speed turn_rate : ℚ) :
    IRBeaconDriverMixin.drive_by_ir_beacon self pressed speed turn_rate =
      (self, [buttonsToCommand pressed speed turn_rate]) := by
  unfold IRBeaconDriverMixin.drive_by_ir_beacon buttonsToCommand
  repeat' split
  all_goals rfl

theorem tank_drive_by_ir_beacon_eq
    (self : ControllerState) (pressed : Finset Button) (speed turn_rate : ℚ) :
    RemoteControlledTank.drive_by_ir_beacon self pressed speed turn_rate =
      (self, [buttonsToCommand pressed speed turn_rate]) := by
  unfold RemoteControlledTank.drive_by_ir_beacon buttonsToCommand
  repeat' split
  all_goals rfl

/-- The eight button sets listed in the if/elif chain, in source order. -/
def listedButtonSets : List (Finset Button) :=
  [{Button.LEFT_UP, Button.RIGHT_UP},
   {Button.LEFT_DOWN, Button.RIGHT_DOWN},
   {Button.LEFT_UP, Button.RIGHT_DOWN},
   {Button.RIGHT_UP, Button.LEFT_DOWN},
   {Button.LEFT_UP},
   {Button.RIGHT_UP},
   {Button.LEFT_DOWN},
   {Button.RIGHT_DOWN}]

theorem buttonsToCommand_LuRu (speed turn_rate : ℚ) :
    buttonsToCommand {Button.LEFT_UP, Button.RIGHT_UP} speed turn_rate =
      DriveCommand.drive speed 0 := by
  unfold buttonsToCommand
  rw [if_pos rfl]

theorem buttonsToCommand_LdRd (speed turn_rate : ℚ) :
    buttonsToCommand {Button.LEFT_DOWN, Button.RIGHT_DOWN} speed turn_rate =
      DriveCommand.drive (-speed) 0 := by
  unfold buttonsToCommand
  rw [if_neg (by decide), if_pos rfl]

theorem buttonsToCommand_LuRd (speed turn_rate : ℚ) :
    buttonsToCommand {Button.LEFT_UP, Button.RIGHT_DOWN} speed turn_rate =
      DriveCommand.drive 0 (-turn_rate) := by
  unfold buttonsToCommand
  rw [if_neg (by decide), if_neg (by decide), if_pos rfl]

theorem buttonsToCommand_RuLd (speed turn_rate : ℚ) :
    buttonsToCommand {Button.RIGHT_UP, Button.LEFT_DOWN} speed turn_rate =
      DriveCommand.drive 0 turn_rate := by
  unfold buttonsToCommand
  rw [if_neg (by decide), if_neg (by decide), if_neg (by decide), if_pos rfl]

theorem buttonsToCommand_Lu (speed turn_rate : ℚ) :
    buttonsToCommand {Button.LEFT_UP} speed turn_rate =
      DriveCommand.drive speed (-turn_rate) := by
  unfold buttonsToCommand
  rw [if_neg (by decide), if_neg (by decide), if_neg (by decide), if_neg (by decide),
    if_pos rfl]

theorem buttonsToCommand_Ru (speed turn_rate : ℚ) :
    buttonsToCommand {Button.RIGHT_UP} speed turn_rate =
      DriveCommand.drive speed turn_rate := by
  unfold buttonsToCommand
  rw [if_neg (by decide), if_neg (by decide), if_neg (by decide), if_neg (by decide),
    if_neg (by decide), if_pos rfl]

theorem buttonsToCommand_Ld (speed turn_rate : ℚ) :
    buttonsToCommand {Button.LEFT_DOWN} speed turn_rate =
      DriveCommand.drive (-speed) turn_rate := by
  unfold buttonsToCommand
  rw [if_neg (by decide), if_neg (by decide), if_neg (by decide), if_neg (by decide),
    if_neg (by decide), if_neg (by decide), if_pos rfl]

theorem buttonsToCommand_Rd (speed turn_rate : ℚ) :
    buttonsToCommand {Button.RIGHT_DOWN} speed turn_rate =
      DriveCommand.drive (-speed) (-turn_rate) := by
  unfold buttonsToCommand
  rw [if_neg (by decide), if_neg (by decide), if_neg (by decide), if_neg (by decide),
    if_neg (by decide), if_neg (by decide), if_neg (by decide), if_pos rfl]

theorem buttonsToCommand_stop_of_unlisted (pressed : Finset Button)
    (speed turn_rate : ℚ) (h : pressed ∉ listedButtonSets) :
    buttonsToCommand pressed speed turn_rate = DriveCommand.stop := by
  simp only [listedButtonSets, List.mem_cons, List.mem_singleton, not_or] at h
  obtain ⟨h1, h2, h3, h4, h5, h6, h7, h8, -⟩ := h
  unfold buttonsToCommand
  rw [if_neg h1, if_neg h2, if_neg h3, if_neg h4, if_neg h5, if_neg h6, if_neg h7,
    if_neg h8]

theorem IRBeaconDriverMixin.run_steps_eq (self : ControllerState)
    (readings : List (Finset Button)) (speed turn_rate : ℚ) :
    IRBeaconDriverMixin.run_steps self readings speed turn_rate =
      (self, readings.map (fun r => buttonsToCommand r speed turn_rate)) := by
  induction readings generalizing self with
  | nil => rfl
  | cons r rs ih =>
    simp [IRBeaconDriverMixin.run_steps, mixin_drive_by_ir_beacon_eq, ih]

/-- C1: for each of the eight listed button sets, a single call to
`drive_by_ir_beacon` (in both the Ev3rstorm mixin and the Gripp3r tank
class) issues exactly the drive command of the mapping table, scaled by
the supplied `speed` / `turn_rate` profile values:
{LEFT_UP, RIGHT_UP} ↦ (+speed, 0); {LEFT_DOWN, RIGHT_DOWN} ↦ (-speed, 0);
{LEFT_UP, RIGHT_DOWN} ↦ (0, -turn_rate); {RIGHT_UP, LEFT_DOWN} ↦
(0, +turn_rate); {LEFT_UP} ↦ (+speed, -turn_rate); {RIGHT_UP} ↦
(+speed, +turn_rate); {LEFT_DOWN} ↦ (-speed, +turn_rate);
{RIGHT_DOWN} ↦ (-speed, -turn_rate). -/
theorem C1_eight_sets_mapping_table (self : ControllerState) (speed turn_rate : ℚ) :
    (IRBeaconDriverMixin.drive_by_ir_beacon self
        {Button.LEFT_UP, Button.RIGHT_UP} speed turn_rate =
      (self, [DriveCommand.drive speed 0])) ∧
    (IRBeaconDriverMixin.drive_by_ir_beacon self
        {Button.LEFT_DOWN, Button.RIGHT_DOWN} speed turn_rate =
      (self, [DriveCommand.drive (-speed) 0])) ∧
    (IRBeaconDriverMixin.drive_by_ir_beacon self
        {Button.LEFT_UP, Button.RIGHT_DOWN} speed turn_rate =
      (self, [DriveCommand.drive 0 (-turn_rate)])) ∧
    (IRBeaconDriverMixin.drive_by_ir_beacon self
        {Button.RIGHT_UP, Button.LEFT_DOWN} speed turn_rate =
      (self, [DriveCommand.drive 0 turn_rate])) ∧
    (IRBeaconDriverMixin.drive_by_ir_beacon self
        {Button.LEFT_UP} speed turn_rate =
      (self, [DriveCommand.drive speed (-turn_rate)])) ∧
    (IRBeaconDriverMixin.drive_by_ir_beacon self
        {Button.RIGHT_UP} speed turn_rate =
      (self, [DriveCommand.drive speed turn_rate])) ∧
    (IRBeaconDriverMixin.drive_by_ir_beacon self
        {Button.LEFT_DOWN} speed turn_rate =
      (self, [DriveCommand.drive (-speed) turn_rate])) ∧
    (IRBeaconDriverMixin.drive_by_ir_beacon self
        {Button.RIGHT_DOWN} speed turn_rate =
      (self, [DriveCommand.drive (-speed) (-turn_rate)])) ∧
    (RemoteControlledTank.drive_by_ir_beacon self
        {Button.LEFT_UP, Button.RIGHT_UP} speed turn_rate =
      (self, [DriveCommand.drive speed 0])) ∧
    (RemoteControlledTank.drive_by_ir_beacon self
        {Button.LEFT_DOWN, Button.RIGHT_DOWN} speed turn_rate =
      (self, [DriveCommand.drive (-speed) 0])) ∧
    (RemoteControlledTank.drive_by_ir_beacon self
        {Button.LEFT_UP, Button.RIGHT_DOWN} speed turn_rate =
      (self, [DriveCommand.drive 0 (-turn_rate)])) ∧
    (RemoteControlledTank.drive_by_ir_beacon self
        {Button.RIGHT_UP, Button.LEFT_DOWN} speed turn_rate =
      (self, [DriveCommand.drive 0 turn_rate])) ∧
    (RemoteControlledTank.drive_by_ir_beacon self
        {Button.LEFT_UP} speed turn_rate =
      (self, [DriveCommand.drive speed (-turn_rate)])) ∧
    (RemoteControlledTank.drive_by_ir_beacon self
        {Button.RIGHT_UP} speed turn_rate =
      (self, [DriveCommand.drive speed turn_rate])) ∧
    (RemoteControlledTank.drive_by_ir_beacon self
        {Button.LEFT_DOWN} speed turn_rate =
      (self, [DriveCommand.drive (-speed) turn_rate])) ∧
    (RemoteControlledTank.drive_by_ir_beacon self
        {Button.RIGHT_DOWN} speed turn_rate =
      (self, [DriveCommand.drive (-speed) (-turn_rate)])) := by
  simp [mixin_drive_by_ir_beacon_eq,
    tank_drive_by_ir_beacon_eq,
    buttonsToCommand_LuRu, buttonsToCommand_LdRd, buttonsToCommand_LuRd,
    buttonsToCommand_RuLd, buttonsToCommand_Lu, buttonsToCommand_Ru,
    buttonsToCommand_Ld, buttonsToCommand_Rd]

/-- C2: every button set outside the eight listed ones — the empty set and
every 3- or 4-button combination among them — makes `drive_by_ir_beacon`
(both copies) issue `stop`; and on every button set whatsoever the step
resolves to a command (the mapping is total, never an error). -/
theorem C2_unlisted_sets_stop (self : ControllerState) (speed turn_rate : ℚ) :
    (∀ pressed : Finset Button, pressed ∉ listedButtonSets →
      IRBeaconDriverMixin.drive_by_ir_beacon self pressed speed turn_rate =
          (self, [DriveCommand.stop]) ∧
        RemoteControlledTank.drive_by_ir_beacon self pressed speed turn_rate =
          (self, [DriveCommand.stop])) ∧
    (∀ pressed : Finset Button,
      IRBeaconDriverMixin.drive_by_ir_beacon self pressed speed turn_rate =
          (self, [buttonsToCommand pressed speed turn_rate]) ∧
        RemoteControlledTank.drive_by_ir_beacon self pressed speed turn_rate =
          (self, [buttonsToCommand pressed speed turn_rate])) := by
  refine ⟨fun pressed h => ?_, fun pressed => ?_⟩
  · rw [mixin_drive_by_ir_beacon_eq,
      tank_drive_by_ir_beacon_eq,
      buttonsToCommand_stop_of_unlisted pressed speed turn_rate h]
    exact ⟨rfl, rfl⟩
  · rw [mixin_drive_by_ir_beacon_eq,
      tank_drive_by_ir_beacon_eq]
    exact ⟨rfl, rfl⟩

/-- Witness for C2 at concrete inputs: the empty set and the unmodeled
triple {LEFT_UP, LEFT_DOWN, RIGHT_UP} both resolve to `stop` for the
profile (speed 300, turn rate 90). -/
theorem C2_unlisted_sets_stop_witness :
    IRBeaconDriverMixin.drive_by_ir_beacon ⟨0, 1, 1⟩ ∅ 300 90 =
        (⟨0, 1, 1⟩, [DriveCommand.stop]) ∧
      IRBeaconDriverMixin.drive_by_ir_beacon ⟨0, 1, 1⟩
          {Button.LEFT_UP, Button.LEFT_DOWN, Button.RIGHT_UP} 300 90 =
        (⟨0, 1, 1⟩, [DriveCommand.stop]) :=
  ⟨((C2_unlisted_sets_stop ⟨0, 1, 1⟩ 300 90).1 ∅ (by decide)).1,
   ((C2_unlisted_sets_stop ⟨0, 1, 1⟩ 300 90).1
      {Button.LEFT_UP, Button.LEFT_DOWN, Button.RIGHT_UP} (by decide)).1⟩

/-- C3: every invocation of `drive_by_ir_beacon` (both copies) issues
exactly one command to the DriveBase collaborator: the trace of issued
commands has length one for every possible button set. -/
theorem C3_exactly_one_command (self : ControllerState)
    (pressed : Finset Button) (speed turn_rate : ℚ) :
    (IRBeaconDriverMixin.drive_by_ir_beacon self pressed speed turn_rate).2.length
        = 1 ∧
      (RemoteControlledTank.drive_by_ir_beacon self pressed speed turn_rate).2.length
        = 1 := by
  rw [mixin_drive_by_ir_beacon_eq,
    tank_drive_by_ir_beacon_eq]
  exact ⟨rfl, rfl⟩

/-- C4: the issued command is a pure, deterministic function of the
current button set and the (speed, turn rate) profile: it does not depend
on the controller state (first conjunct, any two states give the same
trace), and not on call history (second conjunct: after any history of
prior readings, the command appended for the next reading is the fixed
function `buttonsToCommand` of that reading and the profile alone). -/
theorem C4_pure_mapping (pressed : Finset Button) (speed turn_rate : ℚ) :
    (∀ self1 self2 : ControllerState,
      (IRBeaconDriverMixin.drive_by_ir_beacon self1 pressed speed turn_rate).2 =
        (IRBeaconDriverMixin.drive_by_ir_beacon self2 pressed speed turn_rate).2) ∧
    (∀ (self : ControllerState) (history : List (Finset Button)),
      (IRBeaconDriverMixin.run_steps self (history ++ [pressed]) speed turn_rate).2 =
        (IRBeaconDriverMixin.run_steps self history speed turn_rate).2 ++
          [buttonsToCommand pressed speed turn_rate]) := by
  constructor
  · intro self1 self2
    rw [mixin_drive_by_ir_beacon_eq,
      mixin_drive_by_ir_beacon_eq]
  · intro self history
    simp [IRBeaconDriverMixin.run_steps_eq]

/-- C5: the two programs' beacon-drive functions are behaviorally
equivalent: for every controller state, button set and profile, the
Ev3rstorm mixin and the Gripp3r tank class return the same state and
issue the same command. -/
theorem C5_two_programs_equivalent (self : ControllerState)
    (pressed : Finset Button) (speed turn_rate : ℚ) :
    IRBeaconDriverMixin.drive_by_ir_beacon self pressed speed turn_rate =
      RemoteControlledTank.drive_by_ir_beacon self pressed speed turn_rate := rfl

/-- C7: `drive_by_ir_beacon` mutates no controller state (both copies):
the returned state is the input state, so the DriveBase reference, the
sensor reference and the beacon channel are all unchanged; the only
effect is the issued command trace. -/
theorem C7_no_state_mutation (self : ControllerState)
    (pressed : Finset Button) (speed turn_rate : ℚ) :
    (IRBeaconDriverMixin.drive_by_ir_beacon self pressed speed turn_rate).1
        = self ∧
      (IRBeaconDriverMixin.drive_by_ir_beacon self pressed speed turn_rate).1.driver
        = self.driver ∧
      (IRBeaconDriverMixin.drive_by_ir_beacon self pressed speed turn_rate).1.ir_sensor
        = self.ir_sensor ∧
      (IRBeaconDriverMixin.drive_by_ir_beacon
          self pressed speed turn_rate).1.ir_beacon_channel
        = self.ir_beacon_channel ∧
      (RemoteControlledTank.drive_by_ir_beacon self pressed speed turn_rate).1
        = self := by
  rw [mixin_drive_by_ir_beacon_eq,
    tank_drive_by_ir_beacon_eq]
  exact ⟨rfl, rfl, rfl, rfl, rfl⟩

/-- The decision table of the if/elif chain: the row keys in source
priority order, each paired with the command its branch issues. -/
def commandTable (speed turn_rate : ℚ) : List (Finset Button × DriveCommand) :=
  [({Button.LEFT_UP, Button.RIGHT_UP}, DriveCommand.drive speed 0),
   ({Button.LEFT_DOWN, Button.RIGHT_DOWN}, DriveCommand.drive (-speed) 0),
   ({Button.LEFT_UP, Button.RIGHT_DOWN}, DriveCommand.drive 0 (-turn_rate)),
   ({Button.RIGHT_UP, Button.LEFT_DOWN}, DriveCommand.drive 0 turn_rate),
   ({Button.LEFT_UP}, DriveCommand.drive speed (-turn_rate)),
   ({Button.RIGHT_UP}, DriveCommand.drive speed turn_rate),
   ({Button.LEFT_DOWN}, DriveCommand.drive (-speed) turn_rate),
   ({Button.RIGHT_DOWN}, DriveCommand.drive (-speed) (-turn_rate))]

/-- First-match evaluation of a row list: the command of the first row
whose key is exactly the pressed set, and `stop` when no row matches. -/
def firstMatchCommand (rows : List (Finset Button × DriveCommand))
    (pressed : Finset Button) : DriveCommand :=
  ((rows.find? (fun row => row.1 == pressed)).map Prod.snd).getD DriveCommand.stop

theorem buttonsToCommand_eq_firstMatch (pressed : Finset Button)
    (speed turn_rate : ℚ) :
    buttonsToCommand pressed speed turn_rate =
      firstMatchCommand (commandTable speed turn_rate) pressed := by
  fin_cases pressed <;>
    simp +decide [buttonsToCommand, firstMatchCommand, commandTable]

/-- `List.find?` is invariant under permutation when at most one element
can satisfy the predicate (any two satisfying members are equal). -/
theorem find?_eq_of_perm {α : Type} (p : α → Bool) {l1 l2 : List α}
    (hperm : l1.Perm l2) :
    (∀ x ∈ l1, ∀ y ∈ l1, p x = true → p y = true → x = y) →
      l1.find? p = l2.find? p := by
  induction hperm with
  | nil => intro _; rfl
  | cons a h ih =>
    intro huniq
    simp only [List.find?]
    cases hpa : p a
    · exact ih fun x hx y hy hpx hpy =>
        huniq x (List.mem_cons_of_mem a hx) y (List.mem_cons_of_mem a hy) hpx hpy
    · rfl
  | swap a b l =>
    intro huniq
    simp only [List.find?]
    cases hpa : p a <;> cases hpb : p b <;> simp only []
    have hab : b = a :=
      huniq b (List.mem_cons_self b (a :: l)) a
        (List.mem_cons_of_mem b (List.mem_cons_self a l)) hpb hpa
    rw [hab]
  | trans h1 h2 ih1 ih2 =>
    intro huniq
    refine (ih1 huniq).trans (ih2 fun x hx y hy hpx hpy =>
      huniq x (h1.mem_iff.mpr hx) y (h1.mem_iff.mpr hy) hpx hpy)

/-- C6: the eight listed button sets are pairwise distinct; the table row
keys are exactly those sets in priority order; the step is first-match
evaluation of the table (with `stop` as the default); and evaluating any
permutation of the rows yields the same command for every pressed set. -/
theorem C6_rows_mutually_exclusive (speed turn_rate : ℚ) :
    listedButtonSets.Pairwise (fun a b => a ≠ b) ∧
    (commandTable speed turn_rate).map Prod.fst = listedButtonSets ∧
    (∀ (self : ControllerState) (pressed : Finset Button),
      IRBeaconDriverMixin.drive_by_ir_beacon self pressed speed turn_rate =
        (self, [firstMatchCommand (commandTable speed turn_rate) pressed])) ∧
    (∀ (rows : List (Finset Button × DriveCommand)) (pressed : Finset Button),
      (commandTable speed turn_rate).Perm rows →
      firstMatchCommand rows pressed =
        firstMatchCommand (commandTable speed turn_rate) pressed) := by
  refine ⟨by decide, rfl, ?_, ?_⟩
  · intro self pressed
    rw [mixin_drive_by_ir_beacon_eq,
      buttonsToCommand_eq_firstMatch]
  · intro rows pressed hperm
    have hkeys : ((commandTable speed turn_rate).map Prod.fst).Nodup := by
      show listedButtonSets.Nodup
      decide
    have huniq : ∀ x ∈ commandTable speed turn_rate,
        ∀ y ∈ commandTable speed turn_rate,
        (x.1 == pressed) = true → (y.1 == pressed) = true → x = y := by
      intro x hx y hy hpx hpy
      exact List.inj_on_of_nodup_map hkeys hx hy
        (by rw [beq_iff_eq] at hpx hpy; rw [hpx, hpy])
    unfold firstMatchCommand
    rw [find?_eq_of_perm (fun row => row.1 == pressed) hperm huniq]

/-- Witness for C6 at a concrete input: evaluating the table rows in
reversed order gives the same command for the pressed set {LEFT_UP} as
the priority order does. -/
theorem C6_rows_mutually_exclusive_witness :
    firstMatchCommand ((commandTable 100 90).reverse) {Button.LEFT_UP} =
      firstMatchCommand (commandTable 100 90) {Button.LEFT_UP} :=
  (C6_rows_mutually_exclusive 100 90).2.2.2 ((commandTable 100 90).reverse)
    {Button.LEFT_UP} (List.reverse_perm (commandTable 100 90)).symm

/-- A Python parameter: its name and whether it has a default value. -/
structure Param where
  name : String
  has_default : Bool
deriving DecidableEq, Repr

/-- Python-style binding of a call `f(a1, ..., an, kw1=v1, ..., kwm=vm)`
against a callee with plain parameters (no *args / **kwargs): positional
arguments bind the first `npos` parameters in order; a keyword argument
naming a parameter already bound positionally raises `TypeError: got
multiple values for argument`; an unknown keyword name raises
`TypeError`; a parameter left unbound and lacking a default raises
`TypeError`.  Binding depends only on the number of positional arguments
and the keyword names, never on the argument values. -/
def bindCall (params : List Param) (npos : ℕ) (kwnames : List String) :
    Except String Unit :=
  if params.length < npos then
    Except.error "TypeError: too many positional arguments"
  else if kwnames.any (fun kw => (params.take npos).any (fun q => q.name == kw)) then
    Except.error "TypeError: got multiple values for argument"
  else if kwnames.any (fun kw => params.all (fun q => !(q.name == kw))) then
    Except.error "TypeError: unexpected keyword argument"
  else if (params.drop npos).any
      (fun q => !q.has_default && kwnames.all (fun kw => !(q.name == kw))) then
    Except.error "TypeError: missing required argument"
  else
    Except.ok ()

/-- The parameter list of `RemoteControlledTank.__init__` in
`gripp3r/main.py`: `self`, `wheel_diameter` and `axle_track` are
required; the two motor ports, the sensor port and the beacon channel
have defaults. -/
def RemoteControlledTank.initParams : List Param :=
  [⟨"self", false⟩,
   ⟨"wheel_diameter", false⟩,
   ⟨"axle_track", false⟩,
   ⟨"left_motor_port", true⟩,
   ⟨"right_motor_port", true⟩,
   ⟨"ir_sensor_port", true⟩,
   ⟨"ir_beacon_channel", true⟩]

/-- The parent-initializer call made by `Gripp3r.__init__`:
`super().__init__(self, wheel_diameter=..., axle_track=...,
left_motor_port=..., right_motor_port=..., ir_sensor_port=...,
ir_beacon_channel=...)`.  `super().__init__` is a bound method, so the
receiver is already passed implicitly and the explicit `self` is a
second positional argument.  The values of `Gripp3r.__init__`'s own
parameters are forwarded as keyword values; binding never inspects them,
so they are taken here but unused. -/
def Gripp3r.initParentCall (_left_track_motor_port _right_track_motor_port
    _ir_sensor_port : ℕ) (_ir_beacon_channel : ℤ) : Except String Unit :=
  bindCall RemoteControlledTank.initParams 2
    ["wheel_diameter", "axle_track", "left_motor_port", "right_motor_port",
     "ir_sensor_port", "ir_beacon_channel"]

/-- C8: for every choice of `Gripp3r` constructor arguments, the call
`Gripp3r.__init__` makes to `RemoteControlledTank.__init__` passes the
extra positional `self` into the `wheel_diameter` slot while also
supplying `wheel_diameter` by keyword, so argument binding always fails
with a `TypeError` (got multiple values for argument) and construction
never succeeds. -/
theorem C8_gripp3r_init_type_error
    (left_track_motor_port right_track_motor_port ir_sensor_port : ℕ)
    (ir_beacon_channel : ℤ) :
    Gripp3r.initParentCall left_track_motor_port right_track_motor_port
        ir_sensor_port ir_beacon_channel =
      Except.error "TypeError: got multiple values for argument" := rfl

/-- Swap LEFT_UP with RIGHT_UP and LEFT_DOWN with RIGHT_DOWN. -/
def mirrorButton : Button → Button
  | Button.LEFT_UP => Button.RIGHT_UP
  | Button.RIGHT_UP => Button.LEFT_UP
  | Button.LEFT_DOWN => Button.RIGHT_DOWN
  | Button.RIGHT_DOWN => Button.LEFT_DOWN

/-- Left-right mirror of a button set. -/
def mirrorSet (s : Finset Button) : Finset Button := s.image mirrorButton

/-- Same linear speed, negated turn rate; `stop` stays `stop`. -/
def mirrorCommand : DriveCommand → DriveCommand
  | DriveCommand.drive v w => DriveCommand.drive v (-w)
  | DriveCommand.stop => DriveCommand.stop

theorem buttonsToCommand_mirror (pressed : Finset Button) (speed turn_rate : ℚ) :
    buttonsToCommand (mirrorSet pressed) speed turn_rate =
      mirrorCommand (buttonsToCommand pressed speed turn_rate) := by
  fin_cases pressed <;>
    simp +decide [buttonsToCommand, mirrorCommand]

/-- Swap LEFT_UP with LEFT_DOWN and RIGHT_UP with RIGHT_DOWN. -/
def flipButton : Button → Button
  | Button.LEFT_UP => Button.LEFT_DOWN
  | Button.LEFT_DOWN => Button.LEFT_UP
  | Button.RIGHT_UP => Button.RIGHT_DOWN
  | Button.RIGHT_DOWN => Button.RIGHT_UP

/-- Up-down flip of a button set. -/
def flipSet (s : Finset Button) : Finset Button := s.image flipButton

/-- Negated linear speed and negated turn rate; `stop` stays `stop`. -/
def flipCommand : DriveCommand → DriveCommand
  | DriveCommand.drive v w => DriveCommand.drive (-v) (-w)
  | DriveCommand.stop => DriveCommand.stop

theorem buttonsToCommand_flip (pressed : Finset Button) (speed turn_rate : ℚ) :
    buttonsToCommand (flipSet pressed) speed turn_rate =
      flipCommand (buttonsToCommand pressed speed turn_rate) := by
  fin_cases pressed <;>
    simp +decide [buttonsToCommand, flipCommand]

/-- C9: left-right mirror symmetry.  For every button set S, the command
trace that `drive_by_ir_beacon` (both copies) issues for mirror(S) is the
image of the trace for S under "same linear speed, negated turn rate",
and S resolves to `stop` exactly when mirror(S) does. -/
theorem C9_mirror_symmetry (self : ControllerState) (pressed : Finset Button)
    (speed turn_rate : ℚ) :
    ((IRBeaconDriverMixin.drive_by_ir_beacon self (mirrorSet pressed)
          speed turn_rate).2 =
        ((IRBeaconDriverMixin.drive_by_ir_beacon self pressed
          speed turn_rate).2).map mirrorCommand) ∧
    ((RemoteControlledTank.drive_by_ir_beacon self (mirrorSet pressed)
          speed turn_rate).2 =
        ((RemoteControlledTank.drive_by_ir_beacon self pressed
          speed turn_rate).2).map mirrorCommand) ∧
    ((IRBeaconDriverMixin.drive_by_ir_beacon self (mirrorSet pressed)
          speed turn_rate).2 = [DriveCommand.stop] ↔
      (IRBeaconDriverMixin.drive_by_ir_beacon self pressed
          speed turn_rate).2 = [DriveCommand.stop]) := by
  rw [mixin_drive_by_ir_beacon_eq,
    mixin_drive_by_ir_beacon_eq,
    tank_drive_by_ir_beacon_eq,
    tank_drive_by_ir_beacon_eq,
    buttonsToCommand_mirror]
  refine ⟨by simp, by simp, ?_⟩
  generalize buttonsToCommand pressed speed turn_rate = c
  cases c <;> simp [mirrorCommand]

/-- C10: up-down flip antisymmetry.  For every button set S, the command
trace that `drive_by_ir_beacon` (both copies) issues for flip(S) is the
image of the trace for S under negation of both the linear speed and the
turn rate, and S resolves to `stop` exactly when flip(S) does. -/
theorem C10_flip_antisymmetry (self : ControllerState) (pressed : Finset Button)
    (speed turn_rate : ℚ) :
    ((IRBeaconDriverMixin.drive_by_ir_beacon self (flipSet pressed)
          speed turn_rate).2 =
        ((IRBeaconDriverMixin.drive_by_ir_beacon self pressed
          speed turn_rate).2).map flipCommand) ∧
    ((RemoteControlledTank.drive_by_ir_beacon self (flipSet pressed)
          speed turn_rate).2 =
        ((RemoteControlledTank.drive_by_ir_beacon self pressed
          speed turn_rate).2).map flipCommand) ∧
    ((IRBeaconDriverMixin.drive_by_ir_beacon self (flipSet pressed)
          speed turn_rate).2 = [DriveCommand.stop] ↔
      (IRBeaconDriverMixin.drive_by_ir_beacon self pressed
          speed turn_rate).2 = [DriveCommand.stop]) := by
  rw [mixin_drive_by_ir_beacon_eq,
    mixin_drive_by_ir_beacon_eq,
    tank_drive_by_ir_beacon_eq,
    tank_drive_by_ir_beacon_eq,
    buttonsToCommand_flip]
  refine ⟨by simp, by simp, ?_⟩
  generalize buttonsToCommand pressed speed turn_rate = c
  cases c <;> simp [flipCommand]

end Pybricks
